import Mathlib

/-!
# Verification of the lahak inventory system

Shallow embedding of the lahak mobile inventory manager:
* `src/google-apps-script/Code.gs` — the spreadsheet-backed authority
  (`lookupBook`, `getAllBooks`, `addTransaction`, `doPost`, `validateUser`,
  `handleInit`, `getLocations`);
* `src/js/app.js` — the client (`normalizeBookCode`,
  `handleTransactionSubmit`, `setLoading`);
* `src/sw.js` — the offline asset cache (fetch handler).

Spreadsheet cells, JSON fields and JS values are modelled by `JsVal`.
JS numbers are IEEE doubles; here finite numbers are modelled exactly by
rationals (`ℚ`), with `nan`, `inf`, `ninf` as separate constructors — no
claim under scrutiny depends on floating-point rounding.  Sheets are
modelled as the `List (List JsVal)` grid that `getDataRange().getValues()`
returns (row 0 = headers), and each Apps Script function is translated
statement by statement.
-/

namespace Lahak

/-- Model of a JS value as it occurs in spreadsheet cells and JSON
payloads: the empty cell / `undefined` / `''`, a finite number, `NaN`,
`±Infinity`, or a string. -/
inductive JsVal where
  | empty
  | num (q : ℚ)
  | nan
  | inf
  | ninf
  | str (s : String)
deriving Repr, DecidableEq

/-- JS falsiness for the values above: `undefined`/`''`, `0` and `NaN`
are falsy. -/
def isFalsy : JsVal → Bool
  | .empty => true
  | .num q => q = 0
  | .nan => true
  | .str s => s = ""
  | _ => false

/-- `v || 0` in JS: replace a falsy value by the number `0`. -/
def jsOrZero (v : JsVal) : JsVal := if isFalsy v then .num 0 else v

/-- The character class of the JS regex `\s` (ASCII part) and of the JS
whitespace stripped by `trim()` / `parseFloat`. -/
def jsIsSpace (c : Char) : Bool :=
  c = ' ' ∨ c = '\t' ∨ c = '\n' ∨ c = '\r' ∨ c = '\x0b' ∨ c = '\x0c'

/-- JS `String.prototype.trim()` (ASCII whitespace). -/
def jsTrim (s : String) : String :=
  String.mk (((s.toList.dropWhile (fun c => jsIsSpace c)).reverse.dropWhile
      (fun c => jsIsSpace c)).reverse)

/-- JS `toLowerCase` per character (basic-latin range, the only range the
repository's data exercises); `Char.toLower` is exactly this map. -/
def jsLowerChar (c : Char) : Char := Char.toLower c

/-- JS `toLowerCase` on a string. -/
def jsLower (s : String) : String := String.mk (s.toList.map jsLowerChar)

/-- `String(v)` / `v.toString()` for the values above.  For a finite
number the JS decimal rendering is reproduced for integral values, which
are the only numbers the repository ever stringifies. -/
def jsToString : JsVal → String
  | .empty => ""
  | .num q => if q.den = 1 then toString q.num else toString q
  | .nan => "NaN"
  | .inf => "Infinity"
  | .ninf => "-Infinity"
  | .str s => s

/-- `replace(/[-\s]/g, '').toUpperCase()` on the character list: drop
hyphens and whitespace, then uppercase.  `Char.toUpper` is exactly the JS
basic-latin uppercase map. -/
def normChars (l : List Char) : List Char :=
  (l.filter (fun c => ¬(c = '-' ∨ jsIsSpace c))).map Char.toUpper

/-- `src/js/app.js` lines 152–154, `normalizeBookCode`:
`code.toString().replace(/[-\s]/g, '').toUpperCase()`. -/
def normalizeBookCode (s : String) : String := String.mk (normChars s.toList)

/-- `src/google-apps-script/Code.gs` lines 312/316: the backend inlines
the same normalization,
`bookCode.toString().replace(/[-\s]/g, '').toUpperCase()`. -/
def serverNormalizeCode (s : String) : String := String.mk (normChars s.toList)

/- ### Supporting lemmas about the normalizer -/

theorem char_toNat_ofNat_valid (n : Nat) (h : n.isValidChar) :
    (Char.ofNat n).toNat = n := by
  simp only [Char.ofNat, h, dif_pos]
  simp [Char.ofNatAux, Char.toNat, UInt32.toNat]

theorem char_toUpper_idem (c : Char) : c.toUpper.toUpper = c.toUpper := by
  simp only [Char.toUpper]
  by_cases h : c.toNat ≥ 97 ∧ c.toNat ≤ 122
  · rw [if_pos h]
    have hv : (c.toNat - 32).isValidChar := Or.inl (by omega)
    have ht : (Char.ofNat (c.toNat - 32)).toNat = c.toNat - 32 :=
      char_toNat_ofNat_valid _ hv
    rw [if_neg]
    rw [ht]
    omega
  · rw [if_neg h, if_neg h]

theorem char_toUpper_not_sep (c : Char) (h : ¬(c = '-' ∨ jsIsSpace c)) :
    ¬(c.toUpper = '-' ∨ jsIsSpace c.toUpper) := by
  simp only [Char.toUpper]
  by_cases hr : c.toNat ≥ 97 ∧ c.toNat ≤ 122
  · rw [if_pos hr]
    have hv : (c.toNat - 32).isValidChar := Or.inl (by omega)
    have ht : (Char.ofNat (c.toNat - 32)).toNat = c.toNat - 32 :=
      char_toNat_ofNat_valid _ hv
    have hge : 65 ≤ (Char.ofNat (c.toNat - 32)).toNat := by omega
    intro hcon
    have : (Char.ofNat (c.toNat - 32)).toNat < 65 := by
      rcases hcon with hc | hc
      · rw [hc]; decide
      · simp only [jsIsSpace, decide_eq_true_eq] at hc
        rcases hc with h1 | h1 | h1 | h1 | h1 | h1 <;> (rw [h1]; decide)
    omega
  · rw [if_neg hr]; exact h

theorem normChars_idem (l : List Char) : normChars (normChars l) = normChars l := by
  unfold normChars
  have h1 : ∀ c ∈ (l.filter (fun c => ¬(c = '-' ∨ jsIsSpace c))).map Char.toUpper,
      (fun c => decide ¬(c = '-' ∨ jsIsSpace c)) c = true := by
    intro c hc
    rcases List.mem_map.mp hc with ⟨a, ha, rfl⟩
    have hp := (List.mem_filter.mp ha).2
    simp only [decide_eq_true_eq] at hp ⊢
    exact char_toUpper_not_sep a hp
  rw [List.filter_eq_self.mpr h1, List.map_map]
  exact List.map_congr_left (fun a _ => char_toUpper_idem a)

theorem normalizeBookCode_idem (s : String) :
    normalizeBookCode (normalizeBookCode s) = normalizeBookCode s := by
  show String.mk (normChars (String.mk (normChars s.toList)).toList) = _
  show String.mk (normChars (normChars s.toList)) = _
  rw [normChars_idem]
  rfl

/-- C4: the code normalization function removes whitespace and hyphens and
upper-cases the remainder; it is total (a Lean function), idempotent,
separator/case-insensitive (`normalize("AB-12 3") = normalize("ab123")`),
and the client key function (`normalizeBookCode`, `src/js/app.js`) and the
backend lookup key (`serverNormalizeCode`, inlined in `lookupBook`,
`src/google-apps-script/Code.gs`) are the same function. -/
theorem c4_normalize_idempotent_shared_key :
    (∀ x, normalizeBookCode (normalizeBookCode x) = normalizeBookCode x) ∧
    normalizeBookCode "AB-12 3" = normalizeBookCode "ab123" ∧
    (∀ x, normalizeBookCode x = serverNormalizeCode x) := by
  refine ⟨normalizeBookCode_idem, by decide, fun x => rfl⟩

/- ### JS numeric parsing and arithmetic -/

/-- Decimal digit value of a character, if any. -/
def digitVal (c : Char) : Option Nat :=
  if '0' ≤ c ∧ c ≤ '9' then some (c.toNat - 48) else none

/-- Split a leading run of decimal digits off a character list. -/
def takeDigits : List Char → (List Nat × List Char)
  | [] => ([], [])
  | c :: rest =>
    match digitVal c with
    | some d => let (ds, r) := takeDigits rest; (d :: ds, r)
    | none => ([], c :: rest)

/-- Value of a digit list read most-significant first. -/
def natOfDigits (ds : List Nat) : Nat := ds.foldl (fun a d => a * 10 + d) 0

/-- `10^e` over ℚ for a signed exponent. -/
def qpow10 (e : Int) : ℚ :=
  if 0 ≤ e then (10 : ℚ) ^ e.toNat else 1 / (10 : ℚ) ^ (-e).toNat

/-- Exponent part of a JS float literal: optional sign then digits; if no
digits follow, the exponent marker is not consumed (JS `parseFloat("1e")`
is `1`). -/
def parseExpPart (cs : List Char) : Int :=
  let (sg, cs') :=
    match cs with
    | '-' :: r => ((-1 : Int), r)
    | '+' :: r => ((1 : Int), r)
    | r => ((1 : Int), r)
  let (ds, _) := takeDigits cs'
  if ds = [] then 0 else sg * natOfDigits ds

/-- Whether a character list starts with the given prefix literal. -/
def leadsWith : List Char → List Char → Bool
  | [], _ => true
  | _, [] => false
  | a :: as, b :: bs => a = b ∧ leadsWith as bs

/-- JS `parseFloat` on a string: skip leading whitespace, optional sign,
then either the literal `Infinity` or a decimal significand with optional
fraction and exponent; `NaN` if no digits can be read. -/
def parseFloatStr (s : String) : JsVal :=
  let cs0 := s.toList.dropWhile (fun c => jsIsSpace c)
  let (sg, cs) :=
    match cs0 with
    | '-' :: r => ((-1 : ℚ), r)
    | '+' :: r => ((1 : ℚ), r)
    | r => ((1 : ℚ), r)
  if leadsWith "Infinity".toList cs then (if sg = 1 then .inf else .ninf)
  else
    let (ip, cs1) := takeDigits cs
    let (fp, cs2) :=
      match cs1 with
      | '.' :: r => takeDigits r
      | _ => ([], cs1)
    if ip = [] ∧ fp = [] then .nan
    else
      let mant : ℚ := (natOfDigits ip : ℚ) + (natOfDigits fp : ℚ) / (10 : ℚ) ^ fp.length
      let e : Int :=
        match cs2 with
        | c :: r => if c = 'e' ∨ c = 'E' then parseExpPart r else 0
        | [] => 0
      .num (sg * (mant * qpow10 e))

/-- JS `parseFloat(v)`: a number argument is passed through (JS stringifies
and re-parses it, which is the identity on the doubles this app handles);
`undefined`/`''` parse to `NaN`; strings are parsed. -/
def parseFloat : JsVal → JsVal
  | .num q => .num q
  | .nan => .nan
  | .inf => .inf
  | .ninf => .ninf
  | .empty => .nan
  | .str s => parseFloatStr s

/-- JS `+` on the modelled values: string concatenation when either side
is a string, IEEE-style propagation of `NaN`/infinities, exact rational
addition of finite numbers (`''` coerces to `0` in the numeric case). -/
def jsAdd : JsVal → JsVal → JsVal
  | .str a, b => .str (a ++ jsToString b)
  | a, .str b => .str (jsToString a ++ b)
  | .nan, _ => .nan
  | _, .nan => .nan
  | .inf, .ninf => .nan
  | .ninf, .inf => .nan
  | .inf, _ => .inf
  | _, .inf => .inf
  | .ninf, _ => .ninf
  | _, .ninf => .ninf
  | .num a, .num b => .num (a + b)
  | .empty, .num b => .num b
  | .num a, .empty => .num a
  | .empty, .empty => .num 0

/- ### Spreadsheet grids (`getDataRange().getValues()`) -/

/-- One sheet row as returned by `getValues()`. -/
abbrev Row := List JsVal

/-- A whole sheet: row 0 is the header row. -/
abbrev Grid := List Row

/-- `row[i]` in JS: out-of-range indexing yields `undefined`, which the
code only ever feeds to falsiness checks and `toString`, where it behaves
like the empty cell. -/
def cellAt (row : Row) (i : Nat) : JsVal := row.getD i .empty

/-- `headers.indexOf(name)`: index of the first cell that strictly equals
the string, `none` for JS `-1`. -/
def colIdx (headers : Row) (name : String) : Option Nat :=
  headers.findIdx? (fun v => v = JsVal.str name)

/-- Read an optional column: `col !== -1 ? data[i][col] : dflt`. -/
def getOpt (row : Row) (i : Option Nat) (dflt : JsVal) : JsVal :=
  match i with
  | some j => cellAt row j
  | none => dflt

/-- The reserved column names of the Books sheet
(`Code.gs` lines 194/302). -/
def standardCols : List String :=
  ["Book_code", "Book_series", "Book_name", "Volume", "Total", "Last_update"]

/-- Location-column discovery (`Code.gs` lines 196–201 and 304–309): every
column whose trimmed header is non-empty and not reserved, with its index. -/
def locationCols (headers : Row) (i : Nat := 0) : List (Nat × String) :=
  match headers with
  | [] => []
  | h :: rest =>
    let headerName := jsTrim (jsToString h)
    if ¬ standardCols.contains headerName ∧ headerName ≠ "" then
      (i, headerName) :: locationCols rest (i + 1)
    else
      locationCols rest (i + 1)

/-- Build the `book.locations` object (`Code.gs` lines 218–220, 331–333):
`book.locations[loc.name] = data[i][loc.index] || 0`. -/
def mkLocations (lcs : List (Nat × String)) (row : Row) : List (String × JsVal) :=
  lcs.map (fun p => (p.2, jsOrZero (cellAt row p.1)))

/-- JS object property read on an assignment-ordered association list:
repeated assignments to one key overwrite, so the last entry wins;
a missing key reads as `undefined`. -/
def objGet (o : List (String × JsVal)) (k : String) : JsVal :=
  match (o.filter (fun p => p.1 = k)).getLast? with
  | some p => p.2
  | none => .empty

/-- JS `{ ...o, [k]: v }`: every entry of `o` with key `k` now reads `v`;
the key is appended if absent. -/
def objSet (o : List (String × JsVal)) (k : String) (v : JsVal) : List (String × JsVal) :=
  if o.any (fun p => p.1 = k) then
    o.map (fun p => if p.1 = k then (k, v) else p)
  else o ++ [(k, v)]

/-- A book as assembled by `lookupBook` (`Code.gs` lines 319–335),
including the 1-based sheet row index kept for the later write. -/
structure Book where
  code : JsVal
  series : JsVal
  name : JsVal
  volume : JsVal
  total : JsVal
  lastUpdate : JsVal
  locations : List (String × JsVal)
  rowIndex : Nat
deriving Repr, DecidableEq

/-- The row scan of `lookupBook` (`Code.gs` lines 315–337): walk the data
rows from row index `i` (the source loop starts at `i = 1` on the grid
including the header row), return the first row whose normalized code cell
equals the normalized search code, assembled into a `Book` with
`rowIndex = i + 1` (1-based sheet row). -/
def lookupScan (codeCol : Nat) (seriesCol nameCol volumeCol totalCol updateCol : Option Nat)
    (lcs : List (Nat × String)) (target : String) :
    List Row → Nat → Option Book
  | [], _ => none
  | row :: rest, i =>
    if serverNormalizeCode (jsToString (cellAt row codeCol)) = target then
      some { code := cellAt row codeCol
             series := getOpt row seriesCol (.str "")
             name := getOpt row nameCol (.str "")
             volume := getOpt row volumeCol (.str "")
             total := getOpt row totalCol (.num 0)
             lastUpdate := getOpt row updateCol (.str "")
             locations := mkLocations lcs row
             rowIndex := i + 1 }
    else
      lookupScan codeCol seriesCol nameCol volumeCol totalCol updateCol lcs target rest (i + 1)

/-- `lookupBook` (`Code.gs` lines 278–340).  The `Book_code` column is
required (line 297–299 throws), the other reserved columns are optional;
the throw is modelled by `Except.error`. -/
def lookupBook (data : Grid) (bookCode : JsVal) : Except String (Option Book) :=
  let headers := data.headD []
  match colIdx headers "Book_code" with
  | none => .error "Book_code column not found in Books sheet"
  | some codeCol =>
    let seriesCol := colIdx headers "Book_series"
    let nameCol := colIdx headers "Book_name"
    let volumeCol := colIdx headers "Volume"
    let totalCol := colIdx headers "Total"
    let updateCol := colIdx headers "Last_update"
    let lcs := locationCols headers
    let target := serverNormalizeCode (jsToString bookCode)
    .ok (lookupScan codeCol seriesCol nameCol volumeCol totalCol updateCol lcs target
      (data.drop 1) 1)

/-- A book as returned by `getAllBooks` (`Code.gs` lines 204–223), without
the private `rowIndex`. -/
structure BookPub where
  code : JsVal
  series : JsVal
  name : JsVal
  volume : JsVal
  total : JsVal
  lastUpdate : JsVal
  locations : List (String × JsVal)
deriving Repr, DecidableEq

/-- `getAllBooks` (`Code.gs` lines 170–226): every data row with a truthy
code cell, assembled like `lookupBook` does. -/
def getAllBooks (data : Grid) : Except String (List BookPub) :=
  let headers := data.headD []
  match colIdx headers "Book_code" with
  | none => .error "Book_code column not found in Books sheet"
  | some codeCol =>
    let seriesCol := colIdx headers "Book_series"
    let nameCol := colIdx headers "Book_name"
    let volumeCol := colIdx headers "Volume"
    let totalCol := colIdx headers "Total"
    let updateCol := colIdx headers "Last_update"
    let lcs := locationCols headers
    .ok ((data.drop 1).filterMap (fun row =>
      if isFalsy (cellAt row codeCol) then none
      else some { code := cellAt row codeCol
                  series := getOpt row seriesCol (.str "")
                  name := getOpt row nameCol (.str "")
                  volume := getOpt row volumeCol (.str "")
                  total := getOpt row totalCol (.num 0)
                  lastUpdate := getOpt row updateCol (.str "")
                  locations := mkLocations lcs row }))

/- ### Users, Locations, bootstrap (`validateUser`, `getLocations`, `handleInit`) -/

/-- The user record `validateUser` returns (`Code.gs` lines 117–121). -/
structure UserRec where
  email : JsVal
  name : JsVal
  default_location : JsVal
deriving Repr, DecidableEq

/-- `validateUser` (`Code.gs` lines 87–126): find the `Email` column, then
the first data row whose email cell, lower-cased and trimmed, equals the
lower-cased trimmed argument.  A missing `Email` column returns `null`
(line 104–107); the sheet grid itself is part of the state. -/
def validateUser (data : Grid) (email : JsVal) : Option UserRec :=
  let headers := data.headD []
  match colIdx headers "Email" with
  | none => none
  | some emailCol =>
    let nameCol := colIdx headers "Name"
    let defaultLocCol := colIdx headers "Default_location"
    let normalizedEmail := jsTrim (jsLower (jsToString email))
    ((data.drop 1).find? (fun row =>
        jsTrim (jsLower (jsToString (cellAt row emailCol))) = normalizedEmail)).map
      (fun row =>
        { email := cellAt row emailCol
          name := getOpt row nameCol (.str "")
          default_location := getOpt row defaultLocCol (.str "") })

/-- A location as returned by `getLocations` (`Code.gs` lines 156–159). -/
structure LocRec where
  code : String
  name : String
deriving Repr, DecidableEq

/-- `getLocations` (`Code.gs` lines 132–164): needs both the
`Location_code` and `Location_name` columns, keeps rows where either cell
is truthy. -/
def getLocations (data : Grid) : List LocRec :=
  let headers := data.headD []
  match colIdx headers "Location_code", colIdx headers "Location_name" with
  | some codeCol, some nameCol =>
    (data.drop 1).filterMap (fun row =>
      if ¬ isFalsy (cellAt row codeCol) ∨ ¬ isFalsy (cellAt row nameCol) then
        some { code := jsTrim (jsToString (cellAt row codeCol))
               name := jsTrim (jsToString (cellAt row nameCol)) }
      else none)
  | _, _ => []

/-- The whole authority-side state: the four sheets of the spreadsheet. -/
structure ServerState where
  booksData : Grid
  txData : Grid
  usersData : Grid
  locationsData : Grid
deriving Repr, DecidableEq

/-- The JSON bodies `handleInit` can produce (`Code.gs` lines 60–80): the
unauthorized error body (which carries no catalog or location data), the
success body, or a caught server error (e.g. `getAllBooks` threw). -/
inductive InitResponse where
  | unauthorized
  | ok (user : UserRec) (locations : List LocRec) (books : List BookPub)
  | serverError (msg : String)
deriving Repr, DecidableEq

/-- `handleInit` (`Code.gs` lines 60–80): validate the user, then load
locations and books. -/
def handleInit (st : ServerState) (email : JsVal) : InitResponse :=
  match validateUser st.usersData email with
  | none => .unauthorized
  | some user =>
    match getAllBooks st.booksData with
    | .error e => .serverError e
    | .ok books => .ok user (getLocations st.locationsData) books

/-- The books carried by an `InitResponse`. -/
def initBooks : InitResponse → List BookPub
  | .ok _ _ bs => bs
  | _ => []

/-- The locations carried by an `InitResponse`. -/
def initLocations : InitResponse → List LocRec
  | .ok _ ls _ => ls
  | _ => []

/-- The column of emails the allow-list exposes: the `Email` column cells
of the data rows (empty when the column is absent). -/
def allowListEmails (data : Grid) : List JsVal :=
  match colIdx (data.headD []) "Email" with
  | none => []
  | some emailCol => (data.drop 1).map (fun row => cellAt row emailCol)

/- ### The aggregator (`addTransaction`) and the POST endpoint (`doPost`) -/

/-- The header scan of `addTransaction` (`Code.gs` lines 382–392): a
forward loop that keeps overwriting the found index, so the LAST column
whose trimmed header equals `name` wins.  `i` is the index of the first
header of the remaining list. -/
def lastColIdxTrim (headers : Row) (name : String) (i : Nat := 0) : Option Nat :=
  match headers with
  | [] => none
  | h :: rest =>
    match lastColIdxTrim rest name (i + 1) with
    | some j => some j
    | none => if jsTrim (jsToString h) = name then some i else none

/-- The transaction object `doPost` hands to `addTransaction`
(`Code.gs` lines 257–263). -/
structure Tx where
  book_code : JsVal
  qty : JsVal
  location : String
  user : JsVal
  comments : JsVal
deriving Repr, DecidableEq

/-- The success body of `addTransaction` (`Code.gs` lines 414–424). -/
structure TxResult where
  book_code : JsVal
  book_name : JsVal
  location : String
  old_qty : JsVal
  new_qty : JsVal
  transaction_qty : JsVal
  locations : List (String × JsVal)
  timestamp : Nat
deriving Repr, DecidableEq

/-- `setValue` on one cell: `getRange` coordinates are 1-based over the
grid including the header row; here `r`/`c` are already 0-based grid
indices.  (`List.set` is in-range only, as are all writes the code makes
on the rectangular grids `getValues` returns.) -/
def updateAt (data : Grid) (r c : Nat) (v : JsVal) : Grid :=
  data.set r ((data.getD r []).set c v)

/-- The ledger row `addTransaction` appends (`Code.gs` lines 368–375):
`[book_code, qty, location, timestamp, user, comments]`. -/
def txRow (tx : Tx) (now : Nat) : Row :=
  [tx.book_code, tx.qty, .str tx.location, .num now, tx.user, tx.comments]

/-- The part of `addTransaction` after the book lookup (`Code.gs` lines
366–424), taking the looked-up book snapshot: append the ledger row, find
the location column (throwing AFTER the append if it is missing), then
read-modify-write the quantity cell and the `Last_update` cell.  The
state is returned even on the error path because the append has already
happened. -/
def txWritePhase (st : ServerState) (tx : Tx) (now : Nat) (book : Book) :
    ServerState × Except String TxResult :=
  let st1 := { st with txData := st.txData ++ [txRow tx now] }
  let headers := st1.booksData.headD []
  let locationColIndex := lastColIdxTrim headers tx.location
  let updateColIndex := lastColIdxTrim headers "Last_update"
  match locationColIndex with
  | none =>
    (st1, .error ("Location column \"" ++ tx.location ++ "\" not found in Books sheet"))
  | some locCol =>
    let currentLocationQty := jsOrZero (objGet book.locations tx.location)
    let newLocationQty := jsAdd currentLocationQty tx.qty
    let d1 := updateAt st1.booksData (book.rowIndex - 1) locCol newLocationQty
    let d2 :=
      match updateColIndex with
      | some uc => updateAt d1 (book.rowIndex - 1) uc (.num now)
      | none => d1
    ({ st1 with booksData := d2 },
     .ok { book_code := tx.book_code
           book_name := book.name
           location := tx.location
           old_qty := currentLocationQty
           new_qty := newLocationQty
           transaction_qty := tx.qty
           locations := objSet book.locations tx.location newLocationQty
           timestamp := now })

/-- `addTransaction` (`Code.gs` lines 347–425): look the book up again,
then run the write phase.  Throws (`.error`) before any mutation if the
book is missing. -/
def addTransaction (st : ServerState) (tx : Tx) (now : Nat) :
    ServerState × Except String TxResult :=
  match lookupBook st.booksData tx.book_code with
  | .error e => (st, .error e)
  | .ok none => (st, .error "Book not found")
  | .ok (some book) => txWritePhase st tx now book

/-- A parsed POST body (`JSON.parse(e.postData.contents)`); `none` models
an absent (`undefined`) field. -/
structure PostBody where
  book_code : Option JsVal
  qty : Option JsVal
  location : Option JsVal
  user : Option JsVal
  comments : Option JsVal
deriving Repr, DecidableEq

/-- JS falsiness of a possibly-absent field (`!data.field`). -/
def jsFalsyOpt : Option JsVal → Bool
  | none => true
  | some v => isFalsy v

/-- The JSON payload `doPost` answers with. -/
inductive ApiResponse where
  | ok (r : TxResult)
  | err (msg : String)
deriving Repr, DecidableEq

/-- `doPost` (`Code.gs` lines 233–271): field-presence validation, the
`isNaN(parseFloat(qty))` check — the ONLY numeric validation — the
existence pre-check via `lookupBook`, then `addTransaction`.  Errors
thrown inside are caught and wrapped as `'Server error: ' +
error.toString()` (line 269). -/
def doPost (st : ServerState) (body : PostBody) (now : Nat) :
    ServerState × ApiResponse :=
  if jsFalsyOpt body.book_code ∨ body.qty = none ∨ jsFalsyOpt body.location ∨
      jsFalsyOpt body.user then
    (st, .err "Missing required fields: book_code, qty, location, user")
  else
    let qty := parseFloat (body.qty.getD .empty)
    if qty = .nan then
      (st, .err "qty must be a valid number")
    else
      match lookupBook st.booksData (body.book_code.getD .empty) with
      | .error e => (st, .err ("Server error: Error: " ++ e))
      | .ok none => (st, .err "Book not found")
      | .ok (some _) =>
        let tx : Tx :=
          { book_code := body.book_code.getD .empty
            qty := qty
            location := jsTrim (jsToString (body.location.getD .empty))
            user := body.user.getD .empty
            comments := if jsFalsyOpt body.comments then .str "" else body.comments.getD .empty }
        let (st', r) := addTransaction st tx now
        match r with
        | .ok res => (st', .ok res)
        | .error e => (st', .err ("Server error: Error: " ++ e))

/- ### Supporting lemmas for the aggregator -/

theorem getD_set_self {α : Type} (l : List α) (i : Nat) (a d : α) (h : i < l.length) :
    (l.set i a).getD i d = a := by
  simp [List.getD_eq_getElem?_getD, List.getElem?_set_self h]

theorem getD_set_ne {α : Type} (l : List α) (i j : Nat) (a d : α) (h : i ≠ j) :
    (l.set i a).getD j d = l.getD j d := by
  simp [List.getD_eq_getElem?_getD, List.getElem?_set_ne h]

theorem lastColIdxTrim_sound (name : String) :
    ∀ (headers : Row) (i j : Nat), lastColIdxTrim headers name i = some j →
      ∃ k, k < headers.length ∧ j = i + k ∧
        jsTrim (jsToString (headers.getD k .empty)) = name := by
  intro headers
  induction headers with
  | nil => intro i j h; simp [lastColIdxTrim] at h
  | cons h rest ih =>
    intro i j hj
    unfold lastColIdxTrim at hj
    cases hrec : lastColIdxTrim rest name (i + 1) with
    | some j' =>
      rw [hrec] at hj
      have hjj : j' = j := by simpa using hj
      obtain ⟨k', hk1, hk2, hk3⟩ := ih (i + 1) j' hrec
      exact ⟨k' + 1, by simpa using Nat.succ_lt_succ hk1, by omega, by simpa using hk3⟩
    | none =>
      rw [hrec] at hj
      by_cases hcond : jsTrim (jsToString h) = name
      · rw [if_pos hcond] at hj
        obtain rfl : i = j := by simpa using hj
        exact ⟨0, by simp, by omega, by simpa using hcond⟩
      · rw [if_neg hcond] at hj
        exact absurd hj (by simp)

theorem lastColIdxTrim_name (headers : Row) (name : String) (j : Nat)
    (h : lastColIdxTrim headers name = some j) :
    jsTrim (jsToString (headers.getD j .empty)) = name := by
  obtain ⟨k, _, hk2, hk3⟩ := lastColIdxTrim_sound name headers 0 j h
  have hjk : j = k := by omega
  rw [hjk]
  exact hk3

theorem lastColIdxTrim_bound (headers : Row) (name : String) (j : Nat)
    (h : lastColIdxTrim headers name = some j) : j < headers.length := by
  obtain ⟨k, hk1, hk2, _⟩ := lastColIdxTrim_sound name headers 0 j h
  omega

theorem lastColIdxTrim_ne (headers : Row) (n1 n2 : String) (j1 j2 : Nat)
    (h1 : lastColIdxTrim headers n1 = some j1)
    (h2 : lastColIdxTrim headers n2 = some j2)
    (hne : n1 ≠ n2) : j1 ≠ j2 := by
  intro hcon
  apply hne
  rw [← lastColIdxTrim_name headers n1 j1 h1, ← lastColIdxTrim_name headers n2 j2 h2, hcon]

deriving instance DecidableEq for Except

/- ### C1: successful submission adds the signed delta -/

/-- Core specification of a successful `addTransaction` run: the response
reports `old_qty` as the pre-apply looked-up quantity and
`new_qty = old_qty + delta`, and the post-state stores `new_qty` in the
location cell. -/
theorem addTransaction_ok_spec (st : ServerState) (tx : Tx) (now : Nat)
    (st' : ServerState) (res : TxResult) (book : Book) (locCol : Nat)
    (hb : lookupBook st.booksData tx.book_code = .ok (some book))
    (hc : lastColIdxTrim (st.booksData.headD []) tx.location = some locCol)
    (hrun : addTransaction st tx now = (st', .ok res))
    (hloc : tx.location ≠ "Last_update")
    (hr : book.rowIndex - 1 < st.booksData.length)
    (hlen : locCol < (st.booksData.getD (book.rowIndex - 1) []).length) :
    res.old_qty = jsOrZero (objGet book.locations tx.location) ∧
    res.new_qty = jsAdd res.old_qty tx.qty ∧
    cellAt (st'.booksData.getD (book.rowIndex - 1) []) locCol = res.new_qty ∧
    (∀ q d, res.old_qty = .num q → tx.qty = .num d → res.new_qty = .num (q + d)) := by
  have key : txWritePhase st tx now book = (st', .ok res) := by
    rw [addTransaction, hb] at hrun; exact hrun
  rw [txWritePhase] at key
  dsimp only at key
  cases hu : lastColIdxTrim (st.booksData.headD []) "Last_update" with
  | none =>
    rw [hc, hu] at key
    injection key with hst hres
    injection hres with hres
    subst hst
    subst hres
    refine ⟨rfl, rfl, ?_, ?_⟩
    · dsimp only
      rw [updateAt]
      rw [cellAt, getD_set_self _ _ _ _ hr, getD_set_self _ _ _ _ hlen]
    · intro q d hq hd
      dsimp only at hq ⊢
      rw [hq, hd]
      rfl
  | some uc =>
    rw [hc, hu] at key
    injection key with hst hres
    injection hres with hres
    subst hst
    subst hres
    have hne : uc ≠ locCol :=
      Ne.symm (lastColIdxTrim_ne _ _ _ _ _ hc hu hloc)
    refine ⟨rfl, rfl, ?_, ?_⟩
    · dsimp only
      rw [updateAt, updateAt]
      rw [cellAt, getD_set_self _ _ _ _ (by simpa using hr),
          getD_set_ne _ _ _ _ _ hne,
          getD_set_self _ _ _ _ hr, getD_set_self _ _ _ _ hlen]
    · intro q d hq hd
      dsimp only at hq ⊢
      rw [hq, hd]
      rfl

/-- C1: for every successful transaction submission on an item and a
registered location (`addTransaction` returning a success body), the
quantity cell stored for that (item, location) after the apply equals the
pre-apply quantity (the `|| 0`-coerced snapshot the lookup produced) plus
the transaction's signed delta, and the response reports `old_qty` as that
pre-apply quantity and `new_qty = old_qty + delta`; no sign check is
applied, so a delta driving the result negative is accepted (see the
witness: `old_qty = 15`, `delta = -20`, `new_qty = -5`). -/
theorem c1_submit_adds_delta (st : ServerState) (tx : Tx) (now : Nat)
    (st' : ServerState) (res : TxResult) (book : Book) (locCol : Nat)
    (hb : lookupBook st.booksData tx.book_code = .ok (some book))
    (hc : lastColIdxTrim (st.booksData.headD []) tx.location = some locCol)
    (hrun : addTransaction st tx now = (st', .ok res))
    (hloc : tx.location ≠ "Last_update")
    (hr : book.rowIndex - 1 < st.booksData.length)
    (hlen : locCol < (st.booksData.getD (book.rowIndex - 1) []).length) :
    res.old_qty = jsOrZero (objGet book.locations tx.location) ∧
    res.new_qty = jsAdd res.old_qty tx.qty ∧
    cellAt (st'.booksData.getD (book.rowIndex - 1) []) locCol = res.new_qty ∧
    (∀ q d, res.old_qty = .num q → tx.qty = .num d → res.new_qty = .num (q + d)) :=
  addTransaction_ok_spec st tx now st' res book locCol hb hc hrun hloc hr hlen

/-- The spec's running example state for C1: `BK-001` held at quantity 15
in location `A` (after the first `+5` of the scenario). -/
def c1st : ServerState :=
  { booksData := [[.str "Book_code", .str "Book_name", .str "Total", .str "Last_update",
                   .str "A", .str "B"],
                  [.str "BK-001", .str "Alpha", .num 10, .str "", .num 15, .empty]]
    txData := []
    usersData := [[.str "Email"]]
    locationsData := [[.str "Location_code", .str "Location_name"], [.str "A", .str "A"]] }

/-- The C1 scenario transaction: delta `-20` at location `A`. -/
def c1tx : Tx :=
  { book_code := .str "BK-001", qty := .num (-20), location := "A",
    user := .str "Ada", comments := .str "" }

/-- The book snapshot `lookupBook` produces on `c1st`. -/
def c1book : Book :=
  { code := .str "BK-001", series := .str "", name := .str "Alpha", volume := .str "",
    total := .num 10, lastUpdate := .str "",
    locations := [("A", .num 15), ("B", .num 0)], rowIndex := 2 }

/-- The post state of the C1 scenario. -/
def c1stPost : ServerState :=
  { booksData := [[.str "Book_code", .str "Book_name", .str "Total", .str "Last_update",
                   .str "A", .str "B"],
                  [.str "BK-001", .str "Alpha", .num 10, .num 4, .num (-5), .empty]]
    txData := [[.str "BK-001", .num (-20), .str "A", .num 4, .str "Ada", .str ""]]
    usersData := [[.str "Email"]]
    locationsData := [[.str "Location_code", .str "Location_name"], [.str "A", .str "A"]] }

/-- The success body of the C1 scenario: `old_qty = 15`, `new_qty = -5`. -/
def c1res : TxResult :=
  { book_code := .str "BK-001", book_name := .str "Alpha", location := "A",
    old_qty := .num 15, new_qty := .num (-5), transaction_qty := .num (-20),
    locations := [("A", .num (-5)), ("B", .num 0)], timestamp := 4 }

/-- Witness for C1 at the spec scenario: the `-20` delta is accepted and
drives the stored quantity to `-5 = 15 + (-20)`. -/
theorem c1_submit_adds_delta_witness :
    c1res.old_qty = jsOrZero (objGet c1book.locations c1tx.location) ∧
    c1res.new_qty = jsAdd c1res.old_qty c1tx.qty ∧
    cellAt (c1stPost.booksData.getD (c1book.rowIndex - 1) []) 4 = c1res.new_qty ∧
    c1res.new_qty = .num (15 + (-20)) := by
  have h := c1_submit_adds_delta c1st c1tx 4 c1stPost c1res c1book 4
    (by with_unfolding_all decide) (by decide) (by with_unfolding_all decide)
    (by decide) (by decide) (by decide)
  exact ⟨h.1, h.2.1, h.2.2.1, h.2.2.2 15 (-20) (by decide) rfl⟩

/- ### C2: unknown location — quantities untouched, but the ledger row is appended -/

/-- C2 (amended): for every submitted transaction whose item exists but
whose location does not resolve to a column of the Books sheet,
`addTransaction` raises an error naming the location (surfaced by `doPost`
as a server error) and leaves the item's quantities byte-for-byte
unchanged — but, contrary to the claim as stated, a record IS appended to
the transaction ledger first, because the append (`Code.gs` line 368)
precedes the location-column check (line 394). -/
theorem c2_unknown_location_keeps_qty_but_appends (st : ServerState) (tx : Tx)
    (now : Nat) (book : Book)
    (hb : lookupBook st.booksData tx.book_code = .ok (some book))
    (hc : lastColIdxTrim (st.booksData.headD []) tx.location = none) :
    addTransaction st tx now =
      ({ st with txData := st.txData ++ [txRow tx now] },
       .error ("Location column \"" ++ tx.location ++ "\" not found in Books sheet")) := by
  have key : addTransaction st tx now = txWritePhase st tx now book := by
    rw [addTransaction, hb]
  rw [key, txWritePhase]
  dsimp only
  rw [hc]

/-- A transaction naming a location that is no column of the Books sheet. -/
def c2tx : Tx :=
  { book_code := .str "BK-001", qty := .num 5, location := "NOWHERE",
    user := .str "Ada", comments := .str "" }

/-- Counterexample to C2 as stated: submitting against the existing book
`BK-001` with the unknown location `NOWHERE` grows the transaction ledger
by one record (the claim says no record is appended); the quantity grid is
indeed unchanged and an error is returned. -/
theorem c2_counterexample :
    (addTransaction c1st c2tx 5).1.txData.length = c1st.txData.length + 1 ∧
    (addTransaction c1st c2tx 5).1.booksData = c1st.booksData ∧
    (addTransaction c1st c2tx 5).2 =
      .error "Location column \"NOWHERE\" not found in Books sheet" := by
  refine ⟨?_, ?_, ?_⟩ <;> with_unfolding_all decide

/-- Witness for the amended C2 at a concrete state. -/
theorem c2_unknown_location_witness :
    addTransaction c1st c2tx 5 =
      ({ c1st with txData := [txRow c2tx 5] },
       .error "Location column \"NOWHERE\" not found in Books sheet") := by
  have h := c2_unknown_location_keeps_qty_but_appends c1st c2tx 5 c1book
    (by with_unfolding_all decide) (by decide)
  exact h

/- ### C7: only the per-location variant is writable -/

/-- C7 (amended): the aggregator resolves the write target ONLY by
matching a Books-sheet header against the transaction's location name; it
never falls back to the single aggregate `Total` cell.  For an item sheet
exposing no per-location columns (`locationCols = []`, the single-aggregate
shape), a transaction addressed at any name that is no header fails with
an error and leaves the whole quantity grid — the `Total` aggregate
included — unchanged. -/
theorem c7_aggregate_variant_not_writable (st : ServerState) (tx : Tx)
    (now : Nat) (book : Book)
    (hb : lookupBook st.booksData tx.book_code = .ok (some book))
    (_hlocs : locationCols (st.booksData.headD []) = [])
    (hc : lastColIdxTrim (st.booksData.headD []) tx.location = none) :
    (addTransaction st tx now).1.booksData = st.booksData ∧
    (addTransaction st tx now).2 =
      .error ("Location column \"" ++ tx.location ++ "\" not found in Books sheet") := by
  rw [c2_unknown_location_keeps_qty_but_appends st tx now book hb hc]
  exact ⟨rfl, rfl⟩

/-- A Books sheet exposing only the reserved columns — the
single-aggregate shape: `BK-001` with `Total = 10` and no per-location
column. -/
def c7st : ServerState :=
  { booksData := [[.str "Book_code", .str "Book_name", .str "Total", .str "Last_update"],
                  [.str "BK-001", .str "Alpha", .num 10, .str ""]]
    txData := []
    usersData := [[.str "Email"]]
    locationsData := [[.str "Location_code", .str "Location_name"], [.str "A", .str "A"]] }

/-- The transaction of the C7 counterexample: the registered location `A`. -/
def c7tx : Tx :=
  { book_code := .str "BK-001", qty := .num 5, location := "A",
    user := .str "Ada", comments := .str "" }

/-- The book snapshot `lookupBook` produces on `c7st`: only the aggregate
`Total` cell, no location entries. -/
def c7book : Book :=
  { code := .str "BK-001", series := .str "", name := .str "Alpha", volume := .str "",
    total := .num 10, lastUpdate := .str "", locations := [], rowIndex := 2 }

/-- Counterexample to C7 as stated: `A` is a registered location, `BK-001`
exists and exposes only the single aggregate cell (`Total = 10`), yet the
transaction does not update that aggregate — it throws, and the books grid
(the `Total` cell included) is unchanged. -/
theorem c7_counterexample :
    getLocations c7st.locationsData = [{ code := "A", name := "A" }] ∧
    lookupBook c7st.booksData c7tx.book_code = .ok (some c7book) ∧
    c7book.total = .num 10 ∧ c7book.locations = [] ∧
    (addTransaction c7st c7tx 6).1.booksData = c7st.booksData ∧
    (addTransaction c7st c7tx 6).2 =
      .error "Location column \"A\" not found in Books sheet" := by
  refine ⟨?_, ?_, rfl, rfl, ?_, ?_⟩ <;> with_unfolding_all decide

/-- Witness for the amended C7 at the concrete single-aggregate sheet. -/
theorem c7_aggregate_variant_witness :
    (addTransaction c7st c7tx 6).1.booksData = c7st.booksData ∧
    (addTransaction c7st c7tx 6).2 =
      .error "Location column \"A\" not found in Books sheet" := by
  have h := c7_aggregate_variant_not_writable c7st c7tx 6 c7book
    (by with_unfolding_all decide) (by decide) (by decide)
  exact h

/- ### C5: only NaN is rejected — infinities pass the check -/

/-- C5 (amended): the only numeric validation `doPost` performs is
`isNaN(parseFloat(qty))` (`Code.gs` lines 245–248): a qty parsing to `NaN`
is rejected with the validation error and nothing is applied.  Infinite
values are NOT rejected (see the counterexample): `isNaN(Infinity)` is
false, so `"Infinity"` passes validation and is applied. -/
theorem c5_nan_qty_rejected (st : ServerState) (body : PostBody) (now : Nat)
    (h1 : jsFalsyOpt body.book_code = false) (h2 : body.qty ≠ none)
    (h3 : jsFalsyOpt body.location = false) (h4 : jsFalsyOpt body.user = false)
    (hn : parseFloat (body.qty.getD .empty) = .nan) :
    doPost st body now = (st, .err "qty must be a valid number") := by
  rw [doPost]
  rw [if_neg]
  · dsimp only
    rw [if_pos hn]
  · simp [h1, h2, h3, h4]

/-- A POST body whose qty is the non-finite string `"Infinity"`. -/
def c5body : PostBody :=
  { book_code := some (.str "BK-001"), qty := some (.str "Infinity"),
    location := some (.str "A"), user := some (.str "Ada"), comments := none }

/-- The success body the `"Infinity"` submission receives. -/
def c5res : TxResult :=
  { book_code := .str "BK-001", book_name := .str "Alpha", location := "A",
    old_qty := .num 15, new_qty := .inf, transaction_qty := .inf,
    locations := [("A", .inf), ("B", .num 0)], timestamp := 6 }

/-- Counterexample to C5 as stated: the submitted qty `"Infinity"` parses
to an infinite (non-finite) value, yet `doPost` returns a SUCCESS body and
applies the transaction (the stored grid changes), instead of returning a
`ValidationError`. -/
theorem c5_counterexample :
    parseFloat (.str "Infinity") = .inf ∧
    (doPost c1st c5body 6).2 = .ok c5res ∧
    (doPost c1st c5body 6).1.booksData ≠ c1st.booksData := by
  refine ⟨rfl, ?_, ?_⟩ <;> with_unfolding_all decide

/-- A POST body whose qty parses to `NaN`. -/
def c5badBody : PostBody :=
  { book_code := some (.str "BK-001"), qty := some (.str "abc"),
    location := some (.str "A"), user := some (.str "Ada"), comments := none }

/-- Witness for the amended C5: a `NaN`-parsing qty is rejected with the
validation error and the state is untouched. -/
theorem c5_nan_qty_witness :
    doPost c1st c5badBody 7 = (c1st, .err "qty must be a valid number") := by
  exact c5_nan_qty_rejected c1st c5badBody 7 rfl (by decide) rfl rfl (by decide)

/- ### C3: the read-modify-write is NOT serialized — lost update -/

/-- Initial state of the C3 scenario: `BK-001` at quantity 10 in `A`. -/
def c3st : ServerState :=
  { booksData := [[.str "Book_code", .str "Book_name", .str "Total", .str "Last_update",
                   .str "A", .str "B"],
                  [.str "BK-001", .str "Alpha", .num 10, .str "", .num 10, .empty]]
    txData := []
    usersData := [[.str "Email"]]
    locationsData := [[.str "Location_code", .str "Location_name"], [.str "A", .str "A"]] }

/-- First concurrent submission: `+3` at `A`. -/
def c3txA : Tx :=
  { book_code := .str "BK-001", qty := .num 3, location := "A",
    user := .str "u1", comments := .str "" }

/-- Second concurrent submission: `+4` at `A`. -/
def c3txB : Tx :=
  { book_code := .str "BK-001", qty := .num 4, location := "A",
    user := .str "u2", comments := .str "" }

/-- The snapshot BOTH requests read when their lookups run before either
write lands. -/
def c3book : Book :=
  { code := .str "BK-001", series := .str "", name := .str "Alpha", volume := .str "",
    total := .num 10, lastUpdate := .str "",
    locations := [("A", .num 10), ("B", .num 0)], rowIndex := 2 }

/-- C3: `addTransaction` takes no lock of any kind (`Code.gs` has no
`LockService` call); it is, by definition, the read
(`lookupBook`) followed by the write (`txWritePhase`) on the snapshot.
Serialized, `+3` then `+4` from 10 give 17 — but the unguarded
read-modify-write admits the interleaving ⟨read A, read B, write A,
write B⟩ in which both requests read the same snapshot and the final
quantity is 14: the `+3` update is lost, contradicting the claim that
concurrent submissions always converge to exactly 17. -/
theorem c3_lost_update_interleaving :
    cellAt (((addTransaction (addTransaction c3st c3txA 9).1 c3txB 9).1.booksData).getD 1 [])
      4 = .num 17 ∧
    lookupBook c3st.booksData c3txA.book_code = .ok (some c3book) ∧
    lookupBook c3st.booksData c3txB.book_code = .ok (some c3book) ∧
    cellAt (((txWritePhase (txWritePhase c3st c3txA 9 c3book).1 c3txB 9 c3book).1.booksData).getD 1 [])
      4 = .num 14 ∧
    JsVal.num 14 ≠ JsVal.num 17 := by
  refine ⟨?_, ?_, ?_, ?_, ?_⟩ <;> with_unfolding_all decide

/- ### C10: falsy cells read as quantity 0 -/

theorem mkLocations_cons (p : Nat × String) (rest : List (Nat × String)) (row : Row) :
    mkLocations (p :: rest) row = (p.2, jsOrZero (cellAt row p.1)) :: mkLocations rest row := rfl

theorem filter_mkLocations_notmem (row : Row) (name : String) :
    ∀ (lcs : List (Nat × String)), name ∉ lcs.map Prod.snd →
      (mkLocations lcs row).filter (fun p => p.1 = name) = [] := by
  intro lcs
  induction lcs with
  | nil => intro _; rfl
  | cons p rest ih =>
    intro h
    simp only [List.map_cons, List.mem_cons] at h
    push_neg at h
    rw [mkLocations_cons, List.filter_cons]
    rw [if_neg (by simpa using Ne.symm h.1)]
    exact ih h.2

theorem objGet_mkLocations_falsy (row : Row) (name : String) :
    ∀ (lcs : List (Nat × String)) (i : Nat), (lcs.map Prod.snd).Nodup →
      (i, name) ∈ lcs → isFalsy (cellAt row i) = true →
      objGet (mkLocations lcs row) name = .num 0 := by
  intro lcs
  induction lcs with
  | nil => intro i _ hmem; simp at hmem
  | cons p rest ih =>
    intro i hnd hmem hf
    simp only [List.map_cons, List.nodup_cons] at hnd
    rcases List.mem_cons.mp hmem with heq | htail
    · subst heq
      rw [mkLocations_cons, objGet, List.filter_cons]
      rw [if_pos (by simp)]
      rw [filter_mkLocations_notmem row name rest (by simpa using hnd.1)]
      simp [jsOrZero, hf]
    · have hne : p.2 ≠ name := by
        intro hcon
        exact hnd.1 (hcon ▸ (List.mem_map.mpr ⟨(i, name), htail, rfl⟩))
      rw [mkLocations_cons, objGet, List.filter_cons]
      rw [if_neg (by simpa using hne)]
      rw [← objGet]
      exact ih i hnd.2 htail hf

/-- C10: for every item and registered location column whose stored cell
is falsy (empty, an explicit `0`, `NaN`, `''`), the lookup reports that
location's quantity as `0` (`data[i][loc.index] || 0`, `Code.gs` line
332), and a successful transaction against that (item, location) computes
`old_qty = 0` and `new_qty = delta` rather than failing or propagating the
empty value (`book.locations[...] || 0`, line 399). -/
theorem c10_falsy_cell_zero :
    (∀ (lcs : List (Nat × String)) (row : Row) (i : Nat) (name : String),
        (lcs.map Prod.snd).Nodup → (i, name) ∈ lcs → isFalsy (cellAt row i) = true →
        objGet (mkLocations lcs row) name = .num 0) ∧
    (∀ (st : ServerState) (tx : Tx) (now : Nat) (st' : ServerState) (res : TxResult)
        (book : Book) (locCol : Nat) (d : ℚ),
        lookupBook st.booksData tx.book_code = .ok (some book) →
        lastColIdxTrim (st.booksData.headD []) tx.location = some locCol →
        addTransaction st tx now = (st', .ok res) →
        tx.location ≠ "Last_update" →
        book.rowIndex - 1 < st.booksData.length →
        locCol < (st.booksData.getD (book.rowIndex - 1) []).length →
        objGet book.locations tx.location = .num 0 →
        tx.qty = .num d →
        res.old_qty = .num 0 ∧ res.new_qty = .num d) := by
  constructor
  · intro lcs row i name hnd hmem hf
    exact objGet_mkLocations_falsy row name lcs i hnd hmem hf
  · intro st tx now st' res book locCol d hb hc hrun hloc hr hlen h0 hd
    obtain ⟨hold, _, _, harith⟩ :=
      addTransaction_ok_spec st tx now st' res book locCol hb hc hrun hloc hr hlen
    have hold0 : res.old_qty = .num 0 := by
      rw [hold, h0]
      decide
    refine ⟨hold0, ?_⟩
    have := harith 0 d hold0 hd
    rw [this, zero_add]

/-- The C10 transaction: `+5` against location `B`, whose cell in `c1st`
is empty. -/
def c10tx : Tx :=
  { book_code := .str "BK-001", qty := .num 5, location := "B",
    user := .str "Ada", comments := .str "" }

/-- Post state of the C10 witness run. -/
def c10stPost : ServerState :=
  { booksData := [[.str "Book_code", .str "Book_name", .str "Total", .str "Last_update",
                   .str "A", .str "B"],
                  [.str "BK-001", .str "Alpha", .num 10, .num 8, .num 15, .num 5]]
    txData := [[.str "BK-001", .num 5, .str "B", .num 8, .str "Ada", .str ""]]
    usersData := [[.str "Email"]]
    locationsData := [[.str "Location_code", .str "Location_name"], [.str "A", .str "A"]] }

/-- Success body of the C10 witness run: `old_qty = 0`, `new_qty = 5`. -/
def c10res : TxResult :=
  { book_code := .str "BK-001", book_name := .str "Alpha", location := "B",
    old_qty := .num 0, new_qty := .num 5, transaction_qty := .num 5,
    locations := [("A", .num 15), ("B", .num 5)], timestamp := 8 }

/-- Witness for C10: on `c1st` the `B` cell is empty; the lookup reports
`B` as 0, and the `+5` transaction computes `old_qty = 0`, `new_qty = 5`. -/
theorem c10_falsy_cell_zero_witness :
    objGet (mkLocations (locationCols (c1st.booksData.headD []))
      (c1st.booksData.getD 1 [])) "B" = .num 0 ∧
    c10res.old_qty = .num 0 ∧ c10res.new_qty = .num 5 := by
  refine ⟨?_, ?_⟩
  · exact c10_falsy_cell_zero.1 (locationCols (c1st.booksData.headD []))
      (c1st.booksData.getD 1 []) 5 "B" (by decide) (by decide) (by decide)
  · exact c10_falsy_cell_zero.2 c1st c10tx 8 c10stPost c10res c1book 5 5
      (by with_unfolding_all decide) (by decide) (by with_unfolding_all decide)
      (by decide) (by decide) (by decide) (by decide) rfl

/- ### C6: bootstrap is Unauthorized exactly on allow-list misses -/

theorem validateUser_eq_none_iff (st : ServerState) (email : JsVal) :
    validateUser st.usersData email = none ↔
      ∀ e ∈ allowListEmails st.usersData,
        jsTrim (jsLower (jsToString e)) ≠ jsTrim (jsLower (jsToString email)) := by
  rw [validateUser, allowListEmails]
  cases hc : colIdx (st.usersData.headD []) "Email" with
  | none => simp
  | some ec =>
    simp only [Option.map_eq_none', List.find?_eq_none, List.mem_map,
      decide_eq_true_eq]
    constructor
    · rintro h e ⟨row, hrow, rfl⟩
      exact h row hrow
    · intro h row hrow
      exact h (cellAt row ec) ⟨row, hrow, rfl⟩

/-- C6: `handleInit` returns the unauthorized body exactly when the
supplied identity, lower-cased and trimmed, matches no entry of the
`Email` column of the Users sheet (each compared lower-cased and trimmed);
and on that failure path the response carries no book data and no
location data. -/
theorem c6_bootstrap_unauthorized (st : ServerState) (email : JsVal) :
    (handleInit st email = .unauthorized ↔
      ∀ e ∈ allowListEmails st.usersData,
        jsTrim (jsLower (jsToString e)) ≠ jsTrim (jsLower (jsToString email))) ∧
    (handleInit st email = .unauthorized →
      initBooks (handleInit st email) = [] ∧ initLocations (handleInit st email) = []) := by
  constructor
  · constructor
    · intro h
      refine (validateUser_eq_none_iff st email).mp ?_
      cases hv : validateUser st.usersData email with
      | none => rfl
      | some u =>
        rw [handleInit, hv] at h
        cases hg : getAllBooks st.booksData with
        | error e => rw [hg] at h; exact absurd h (by simp)
        | ok bs => rw [hg] at h; exact absurd h (by simp)
    · intro hr
      rw [handleInit, (validateUser_eq_none_iff st email).mpr hr]
  · intro h
    rw [h]
    exact ⟨rfl, rfl⟩

/-- A state whose allow-list holds exactly one user, `Ada@Example.com `
(note the stray blank and mixed case handled by the trimmed, lower-cased
compare). -/
def c6st : ServerState :=
  { booksData := c1st.booksData
    txData := []
    usersData := [[.str "Email", .str "Name", .str "Default_location"],
                  [.str "Ada@Example.com ", .str "Ada", .str "A"]]
    locationsData := c1st.locationsData }

/-- Witness for C6: an identity not on the allow-list is rejected with
`unauthorized`, and the rejected response carries no books and no
locations. -/
theorem c6_bootstrap_unauthorized_witness :
    handleInit c6st (.str "bob@example.com") = .unauthorized ∧
    initBooks (handleInit c6st (.str "bob@example.com")) = [] ∧
    initLocations (handleInit c6st (.str "bob@example.com")) = [] := by
  have h := c6_bootstrap_unauthorized c6st (.str "bob@example.com")
  have hu : handleInit c6st (.str "bob@example.com") = .unauthorized := h.1.mpr (by decide)
  exact ⟨hu, (h.2 hu).1, (h.2 hu).2⟩

/- ### The Offline Asset Cache (`src/sw.js`, fetch listener, lines 46–67) -/

/-- A fetch request as the service worker sees it. -/
structure FetchRequest where
  method : String
  url : String
  origin : String
deriving Repr, DecidableEq

/-- The versioned cache namespace: URL → stored response body. -/
abbrev SWCache := List (String × String)

/-- Result of the network attempt `fetch(event.request)`. -/
inductive NetOutcome where
  | ok (resp : String)
  | failed
deriving Repr, DecidableEq

/-- `cache.put(request, response)`: store under the request URL,
replacing any previous entry. -/
def cachePut (c : SWCache) (url resp : String) : SWCache :=
  (c.filter (fun p => p.1 ≠ url)) ++ [(url, resp)]

/-- `caches.match(request)`: the stored response for the URL, if any. -/
def cacheMatch (c : SWCache) (url : String) : Option String :=
  match c with
  | [] => none
  | p :: rest => if p.1 = url then some p.2 else cacheMatch rest url

/-- How the fetch handler answers a single fetch event. -/
inductive FetchResult where
  | fromNetwork (resp : String)
  | fromCache (resp : String)
  | failedResp
  | passthrough
deriving Repr, DecidableEq

/-- The fetch listener (`sw.js` lines 46–67): non-GET requests and
cross-origin requests return without `respondWith` (pure passthrough to
the network, and the cache is not touched); otherwise network-first — on
success clone-and-store then answer from the network, on failure answer
from the cache (`failedResp` when the cache has no entry either). -/
def handleFetch (selfOrigin : String) (c : SWCache) (req : FetchRequest)
    (net : NetOutcome) : SWCache × FetchResult :=
  if req.method ≠ "GET" then (c, .passthrough)
  else if req.origin ≠ selfOrigin then (c, .passthrough)
  else
    match net with
    | .ok resp => (cachePut c req.url resp, .fromNetwork resp)
    | .failed =>
      match cacheMatch c req.url with
      | some r => (c, .fromCache r)
      | none => (c, .failedResp)

/-- Run a sequence of fetch events through the handler, threading the
cache. -/
def runFetches (selfOrigin : String) (c : SWCache) :
    List (FetchRequest × NetOutcome) → SWCache
  | [] => c
  | (req, net) :: rest => runFetches selfOrigin (handleFetch selfOrigin c req net).1 rest

theorem cacheMatch_cachePut (c : SWCache) (url u resp : String) :
    cacheMatch (cachePut c u resp) url =
      if url = u then some resp else cacheMatch c url := by
  induction c with
  | nil =>
    rw [cachePut]
    simp only [List.filter_nil, List.nil_append]
    rw [cacheMatch, cacheMatch]
    by_cases h : url = u
    · rw [if_pos h.symm, if_pos h]
    · rw [if_neg (fun hc => h hc.symm), if_neg h, cacheMatch]
  | cons p rest ih =>
    rw [cachePut, List.filter_cons]
    by_cases hp : p.1 = u
    · rw [if_neg (by simpa using hp)]
      rw [show (List.filter (fun q => q.1 ≠ u) rest) ++ [(u, resp)] = cachePut rest u resp from rfl]
      rw [ih]
      by_cases h : url = u
      · rw [if_pos h, if_pos h]
      · rw [if_neg h, if_neg h, cacheMatch]
        rw [if_neg (fun hc => h (by rw [← hc, hp]))]
    · rw [if_pos (by simpa using hp)]
      rw [show ((p :: List.filter (fun q => q.1 ≠ u) rest) ++ [(u, resp)]) =
        p :: (List.filter (fun q => q.1 ≠ u) rest ++ [(u, resp)]) from rfl]
      rw [cacheMatch]
      by_cases hq : p.1 = url
      · rw [if_pos hq]
        rw [if_neg (fun hc => hp (hq ▸ hc)), cacheMatch, if_pos hq]
      · rw [if_neg hq]
        rw [show (List.filter (fun q => q.1 ≠ u) rest) ++ [(u, resp)] = cachePut rest u resp from rfl]
        rw [ih]
        by_cases h : url = u
        · rw [if_pos h, if_pos h]
        · rw [if_neg h, if_neg h, cacheMatch, if_neg hq]

theorem runFetches_append (o : String) :
    ∀ (a b : List (FetchRequest × NetOutcome)) (c : SWCache),
      runFetches o c (a ++ b) = runFetches o (runFetches o c a) b := by
  intro a
  induction a with
  | nil => intro b c; rfl
  | cons e rest ih =>
    intro b c
    obtain ⟨req, net⟩ := e
    rw [List.cons_append, runFetches, runFetches]
    exact ih b _

theorem runFetches_preserves_cached (o : String) :
    ∀ (evs : List (FetchRequest × NetOutcome)) (c : SWCache) (url : String),
      (cacheMatch c url).isSome → (cacheMatch (runFetches o c evs) url).isSome := by
  intro evs
  induction evs with
  | nil => intro c url h; exact h
  | cons e rest ih =>
    intro c url h
    obtain ⟨req, net⟩ := e
    rw [runFetches]
    apply ih
    rw [handleFetch.eq_def]
    by_cases h1 : req.method ≠ "GET"
    · rw [if_pos h1]; exact h
    · rw [if_neg h1]
      by_cases h2 : req.origin ≠ o
      · rw [if_pos h2]; exact h
      · rw [if_neg h2]
        cases net with
        | ok resp =>
          dsimp only
          rw [cacheMatch_cachePut]
          by_cases hu : url = req.url
          · rw [if_pos hu]; rfl
          · rw [if_neg hu]; exact h
        | failed =>
          dsimp only
          cases hm : cacheMatch c req.url with
          | some r => exact h
          | none => exact h

/-- C8: in every sequence of fetch events, a same-origin GET resource
once served successfully from the network (and hence stored in the cache)
is served FROM THE CACHE when a later network attempt for it fails —
nothing in the fetch path ever evicts an entry; and a non-GET request
(e.g. POST) or a cross-origin request is never written into the cache and
bypasses the caching layer entirely (the handler returns the cache
unchanged with a pure passthrough). -/
theorem c8_offline_cache (o : String) (c0 : SWCache)
    (evs1 evs2 : List (FetchRequest × NetOutcome)) (req : FetchRequest) (resp : String)
    (hm : req.method = "GET") (ho : req.origin = o) :
    (∃ r, (handleFetch o (runFetches o c0 (evs1 ++ (req, .ok resp) :: evs2)) req .failed).2
        = .fromCache r) ∧
    (∀ (c : SWCache) (p : FetchRequest) (net : NetOutcome),
        p.method ≠ "GET" ∨ p.origin ≠ o →
        handleFetch o c p net = (c, .passthrough)) := by
  constructor
  · have hstep : ∀ c, (cacheMatch (handleFetch o c req (.ok resp)).1 req.url).isSome := by
      intro c
      rw [handleFetch.eq_def, if_neg (by simp [hm]), if_neg (by simp [ho])]
      dsimp only
      rw [cacheMatch_cachePut, if_pos rfl]
      rfl
    have hsplit : runFetches o c0 (evs1 ++ (req, .ok resp) :: evs2) =
        runFetches o (handleFetch o (runFetches o c0 evs1) req (.ok resp)).1 evs2 := by
      rw [runFetches_append]
      rfl
    have hsome : (cacheMatch (runFetches o c0 (evs1 ++ (req, .ok resp) :: evs2)) req.url).isSome := by
      rw [hsplit]
      exact runFetches_preserves_cached o evs2 _ req.url (hstep _)
    rw [handleFetch.eq_def, if_neg (by simp [hm]), if_neg (by simp [ho])]
    cases hc : cacheMatch (runFetches o c0 (evs1 ++ (req, .ok resp) :: evs2)) req.url with
    | some r =>
      exact ⟨r, rfl⟩
    | none =>
      rw [hc] at hsome
      exact absurd hsome (by simp)
  · intro c p net hp
    rcases hp with hp | hp
    · rw [handleFetch.eq_def, if_pos hp]
    · by_cases hg : p.method ≠ "GET"
      · rw [handleFetch.eq_def, if_pos hg]
      · rw [handleFetch.eq_def, if_neg hg, if_pos hp]

/-- A same-origin GET request for a static asset. -/
def c8req : FetchRequest :=
  { method := "GET", url := "/index.html", origin := "https://app" }

/-- A same-origin POST request (the transaction submission). -/
def c8post : FetchRequest :=
  { method := "POST", url := "/api", origin := "https://app" }

/-- A cross-origin GET request (a Google API call). -/
def c8xorigin : FetchRequest :=
  { method := "GET", url := "https://script.google.com/macros/x",
    origin := "https://script.google.com" }

/-- Witness for C8: `/index.html` is fetched successfully once, a POST
happens in between, then the network fails — the asset is served from the
cache; and a POST as well as a cross-origin GET leave the cache untouched
and pass straight through. -/
theorem c8_offline_cache_witness :
    (∃ r, (handleFetch "https://app"
        (runFetches "https://app" [] ([] ++ (c8req, .ok "body") :: [(c8post, .failed)]))
        c8req .failed).2 = .fromCache r) ∧
    handleFetch "https://app" [("u", "v")] c8post .failed = ([("u", "v")], .passthrough) ∧
    handleFetch "https://app" [("u", "v")] c8xorigin .failed = ([("u", "v")], .passthrough) := by
  have h := c8_offline_cache "https://app" [] [] [(c8post, .failed)] c8req "body" rfl rfl
  exact ⟨h.1, h.2 [("u", "v")] c8post .failed (Or.inl (by decide)),
         h.2 [("u", "v")] c8xorigin .failed (Or.inr (by decide))⟩

/- ### The client (`src/js/app.js`): busy flag and submission -/

/-- A book object as held in the client cache (`appState.books`). -/
structure ClientBook where
  code : JsVal
  name : JsVal
  series : JsVal
  volume : JsVal
  locations : List (String × JsVal)
deriving Repr, DecidableEq

/-- The transaction payload `handleTransactionSubmit` assembles
(`app.js` lines 469–475). -/
structure ClientTx where
  book_code : JsVal
  qty : JsVal
  location : String
  user : JsVal
  comments : String
deriving Repr, DecidableEq

/-- The client application state (`app.js` lines 7–21); DOM-only artefacts
(status message, spinner, disabled inputs) are not part of it — `showStatus`
and the input-disabling in `setLoading` touch only the DOM. -/
structure AppState where
  isAuthenticated : Bool
  user : Option UserRec
  locations : List LocRec
  books : List (String × ClientBook)
  currentBook : Option ClientBook
  isLoading : Bool
deriving Repr, DecidableEq

/-- Whether a submit attempt issues the network call. -/
inductive SubmitAction where
  | noCall
  | callApi (tx : ClientTx)
deriving Repr, DecidableEq

/-- `appState.user.name || appState.user.email` (`app.js` line 473). -/
def userNameOrEmail (s : AppState) : JsVal :=
  match s.user with
  | some u => if isFalsy u.name then u.email else u.name
  | none => .empty

/-- `lookupBook` on the client (`app.js` lines 361–365): a pure cache hit
on the normalized code — no network call. -/
def clientLookupBook (s : AppState) (bookCode : String) : Option ClientBook :=
  (s.books.filter (fun p => p.1 = normalizeBookCode bookCode)).head?.map (fun p => p.2)

/-- The synchronous prefix of `handleTransactionSubmit` (`app.js` lines
438–479), up to and including `setLoading(true)` and the dispatch of the
one network call: no current book → status only, return; busy flag set →
pure return (the no-op the claim describes); `NaN` qty or empty location →
status only, return; otherwise set the busy flag and issue the call. -/
def handleTransactionSubmitAttempt (s : AppState)
    (qtyInput locationInput commentsInput : String) : AppState × SubmitAction :=
  match s.currentBook with
  | none => (s, .noCall)
  | some book =>
    if s.isLoading then (s, .noCall)
    else
      let qty := parseFloat (.str qtyInput)
      if qty = .nan then (s, .noCall)
      else if locationInput = "" then (s, .noCall)
      else
        ({ s with isLoading := true },
         .callApi { book_code := book.code, qty := qty, location := locationInput,
                    user := userNameOrEmail s, comments := jsTrim commentsInput })

/-- The continuation of `handleTransactionSubmit` once the awaited call
settles (`app.js` lines 481–512): on success patch the current book's
location quantity from the response and reset the form (`currentBook :=
null`); on failure only show the error; in BOTH cases the `finally` block
runs `setLoading(false)`, clearing the busy flag. -/
def handleTransactionSubmitComplete (s : AppState) (location : String)
    (outcome : Except String TxResult) : AppState :=
  match outcome with
  | .ok result =>
    let s1 :=
      match s.currentBook with
      | some book =>
        let patched := { book with
          locations := objSet book.locations location result.new_qty }
        { s with currentBook := some patched }
      | none => s
    { s1 with currentBook := none, isLoading := false }
  | .error _ => { s with isLoading := false }

/-- C9: at most one submission is in flight — while the busy flag
(`appState.isLoading`) is set, a further submit attempt performs no
network call and leaves the application state unchanged (the busy-flag
guard at `app.js` line 446), and the flag is cleared when the outstanding
call completes, on success and on failure alike (the `finally` at line
510–512). -/
theorem c9_single_flight_busy_flag (s : AppState) (q l c : String)
    (h : s.isLoading = true) :
    handleTransactionSubmitAttempt s q l c = (s, .noCall) ∧
    (∀ (s' : AppState) (loc : String) (out : Except String TxResult),
      (handleTransactionSubmitComplete s' loc out).isLoading = false) := by
  constructor
  · rw [handleTransactionSubmitAttempt.eq_def]
    cases hcb : s.currentBook with
    | none => rfl
    | some book => simp [h]
  · intro s' loc out
    cases out with
    | ok r => rw [handleTransactionSubmitComplete]
    | error e => rfl

/-- A busy client state: a submission is outstanding for `BK-001`. -/
def c9busy : AppState :=
  { isAuthenticated := true
    user := some { email := .str "ada@example.com", name := .str "Ada",
                   default_location := .str "A" }
    locations := [{ code := "A", name := "A" }]
    books := [("BK001", { code := .str "BK-001", name := .str "Alpha", series := .str "",
                          volume := .str "", locations := [("A", .num 10)] })]
    currentBook := some { code := .str "BK-001", name := .str "Alpha", series := .str "",
                          volume := .str "", locations := [("A", .num 10)] }
    isLoading := true }

/-- Witness for C9: on the busy state a second submit attempt is a no-op
with no network call, and completion — success or failure — clears the
flag. -/
theorem c9_single_flight_witness :
    handleTransactionSubmitAttempt c9busy "5" "A" "" = (c9busy, .noCall) ∧
    (handleTransactionSubmitComplete c9busy "A" (.ok c1res)).isLoading = false ∧
    (handleTransactionSubmitComplete c9busy "A" (.error "TransportError")).isLoading = false := by
  have h := c9_single_flight_busy_flag c9busy "5" "A" "" rfl
  exact ⟨h.1, h.2 c9busy "A" (.ok c1res), h.2 c9busy "A" (.error "TransportError")⟩
